import Mathlib

/-!
# Verification of the Suno-to-Modal bridge userscript

A shallow embedding, in Lean 4, of the state-manipulating core of
src/enhanced_tampermonkey.js: the clip parser, the validator and
deduplicator, the retry engine (sendToWebhook / handleSendError), the
failed-queue replay (retryFailedQueue), the health check
(performHealthCheck) and the fetch interceptor, together with theorems
settling the specified properties of the pipeline.

Modelling conventions:
* JavaScript values flowing through the parser are modelled by the
  inductive type JSValue (null and undefined are merged: both are falsy
  and neither is produced with a distinguishing use in this code).
* The persisted stores (sentIds, failedQueue, stats) and the separate
  last-health-check key form the record St.  GM_setValue persistence is
  identity on this state (the in-memory value is the persisted value).
* Wall-clock timestamps are modelled by the field St.time; the code
  only ever stores timestamps, it never branches on them.
* Identifiers are modelled as strings: the script keys the sentIds
  object by the id (JavaScript coerces object keys to strings) and all
  ids in this system are string UUIDs.
* The network is an oracle mapping the attempt number to an outcome
  (an HTTP status, a network error, or a timeout), so a whole bounded
  retry chain is a deterministic function of the oracle.
* Promise resolution/rejection is modelled by the PResult component of
  SendOut; the wiring sendToWebhook(...).then(reject).catch(reject) of
  handleSendError is modelled faithfully: the outer call is rejected
  whenever any retry was scheduled.
-/

namespace SunoBridge

/-- A JavaScript value as it appears in decoded JSON response bodies.
null and undefined are merged (both falsy, see file header). -/
inductive JSValue where
  | null
  | bool (b : Bool)
  | num (n : Int)
  | str (s : String)
  | arr (elems : List JSValue)
  | obj (fields : List (String × JSValue))

/-- JavaScript truthiness. -/
def truthy : JSValue → Bool
  | .null => false
  | .bool b => b
  | .num n => n != 0
  | .str s => s != ""
  | .arr _ => true
  | .obj _ => true

/-- Array.isArray. -/
def JSValue.isArr : JSValue → Bool
  | .arr _ => true
  | _ => false

/-- Property access v[k]: a missing property, or access on a
non-object, yields undefined (merged with null here). -/
def jget : JSValue → String → JSValue
  | .obj fields, k =>
    match fields.lookup k with
    | some v => v
    | none => .null
  | _, _ => .null

/-- Iterated property access along a path of keys. -/
def getPath (v : JSValue) : List String → JSValue
  | [] => v
  | k :: ks => getPath (jget v k) ks

mutual
/-- JavaScript String() coercion of a value (used for object keys and
template strings). -/
def jsToString : JSValue → String
  | .null => "null"
  | .bool b => cond b "true" "false"
  | .num n => toString n
  | .str s => s
  | .arr elems => jsListToString elems
  | .obj _ => "[object Object]"

/-- Array.prototype.toString: elements joined by commas. -/
def jsListToString : List JSValue → String
  | [] => ""
  | [v] => jsToString v
  | v :: w :: rest => jsToString v ++ "," ++ jsListToString (w :: rest)
end

/-- Truthiness of v.length as used by the interceptor
(if (clips.length) { ... }): arrays use their element count, strings
their character count, objects an explicit length property, everything
else has undefined length. -/
def jsLengthTruthy : JSValue → Bool
  | .arr elems => !elems.isEmpty
  | .str s => s != ""
  | .obj fields => truthy (jget (.obj fields) "length")
  | _ => false

/-- Strict equality test v === "complete" used by the validator. -/
def isCompleteStr : JSValue → Bool
  | .str s => s == "complete"
  | _ => false

/-- parseClips (src/enhanced_tampermonkey.js lines 338-345):
    if (!source) return [];
    if (Array.isArray(source)) return source;
    if (source.clips) return source.clips;
    if (source.result) return source.result;
    if (source.project?.clips) return source.project.clips;
    return []; -/
def parseClips (source : JSValue) : JSValue :=
  if truthy source = false then .arr []
  else if source.isArr then source
  else if truthy (jget source "clips") then jget source "clips"
  else if truthy (jget source "result") then jget source "result"
  else if truthy (jget (jget source "project") "clips") then
    jget (jget source "project") "clips"
  else .arr []

-- ============================================================
-- CONFIG (lines 23-31)
-- ============================================================

def MAX_RETRIES : Nat := 3
def RETRY_DELAY_BASE : Nat := 1000
def BATCH_DELAY : Nat := 2000
def MAX_QUEUE_SIZE : Nat := 50

-- ============================================================
-- Persisted state (lines 43-50)
-- ============================================================

/-- A sentIds entry: sentIds[id] = { timestamp, title } (lines 241-244). -/
structure SentMarker where
  timestamp : Nat
  title : JSValue

/-- The normalized payload built by handleClips (lines 367-375).  The id
is a string (see file header); the remaining fields keep their raw
JavaScript values, with the fallbacks applied at construction. -/
structure Payload where
  id : String
  title : JSValue
  tags : JSValue
  audio_url : JSValue
  duration : JSValue
  status : JSValue

/-- Error classification passed to handleSendError: an HTTP status
outside 2xx, "NETWORK", or "TIMEOUT" (lines 258, 262, 263). -/
inductive ErrCode where
  | http (status : Nat)
  | network
  | timeout
deriving DecidableEq

/-- A failedQueue entry: { ...payload, failed_at, error_code }
(lines 283-287). -/
structure FailedItem where
  payload : Payload
  failed_at : Nat
  error_code : ErrCode

/-- The stats record (lines 45-50); uptime_start is kept as a plain
timestamp. -/
structure Stats where
  total_sent : Nat
  total_failed : Nat
  last_sync : Option Nat
  uptime_start : Nat

/-- The whole persisted state: the three pipeline stores plus the
separate last-health-check key, and the model clock. -/
structure St where
  sentIds : List (String × SentMarker)
  failedQueue : List FailedItem
  stats : Stats
  lastHealth : Option Nat
  time : Nat

/-- saveStats (lines 143-146): stamps last_sync and persists. -/
def saveStats (s : St) : St :=
  { s with stats := { s.stats with last_sync := some s.time } }

/-- Logger.error (lines 72-77): besides logging and toasting, it
increments stats.total_failed and calls saveStats. -/
def loggerError (s : St) : St :=
  saveStats { s with stats := { s.stats with total_failed := s.stats.total_failed + 1 } }

/-- The queue-size check at the top of sendToWebhook (lines 207-212):
when the queue has reached MAX_QUEUE_SIZE the oldest entries are
dropped, keeping the newest 20 (failedQueue.slice(-20)). -/
def trimQueue (s : St) : St :=
  if s.failedQueue.length ≥ MAX_QUEUE_SIZE then
    { s with failedQueue := s.failedQueue.drop (s.failedQueue.length - 20) }
  else s

/-- The permanent-failure enqueue (lines 282-289): push a FailedItem
unless one with the same id is already queued. -/
def pushFailed (s : St) (data : Payload) (code : ErrCode) : St :=
  if s.failedQueue.any (fun item => item.payload.id == data.id) then s
  else { s with failedQueue := s.failedQueue ++ [⟨data, s.time, code⟩] }

/-- The success path of sendToWebhook (lines 229-256): record the
SentMarker, bump total_sent, saveStats, and drop any FailedItem with
the same id.  (The DOM download of the response blob has no effect on
the persisted state.) -/
def succeedSt (s : St) (data : Payload) : St :=
  let s1 := { s with sentIds := (data.id, ⟨s.time, data.title⟩) :: s.sentIds }
  let s2 := { s1 with stats := { s1.stats with total_sent := s1.stats.total_sent + 1 } }
  let s3 := saveStats s2
  { s3 with failedQueue := s3.failedQueue.filter (fun item => item.payload.id != data.id) }

-- ============================================================
-- Retry engine (lines 200-302)
-- ============================================================

/-- Outcome of one network attempt: an HTTP response status, onerror,
or ontimeout. -/
inductive NetOutcome where
  | status (code : Nat)
  | netErr
  | timeoutErr

/-- The classification in the onload/onerror/ontimeout handlers
(lines 228-263): a 2xx status is success (none); anything else yields
the error code handed to handleSendError. -/
def outcomeErr : NetOutcome → Option ErrCode
  | .status c => if 200 ≤ c ∧ c < 300 then none else some (.http c)
  | .netErr => some .network
  | .timeoutErr => some .timeout

/-- Whether the promise returned by sendToWebhook resolves or rejects. -/
inductive PResult where
  | resolved
  | rejected
deriving DecidableEq

/-- Full observable result of one sendToWebhook call: the state after
the chain settles, the settlement of the returned promise, the number
of network calls issued, and the retry delays scheduled (in order). -/
structure SendOut where
  state : St
  result : PResult
  calls : Nat
  delays : List Nat

/-- The body of sendToWebhook together with handleSendError
(lines 200-302), as a single recursion.  The code recurses with
attempt+1 exactly when attempt < MAX_RETRIES; here that bounded
recursion is made structural on fuel = MAX_RETRIES - attempt (so
fuel = 0 iff attempt ≥ MAX_RETRIES, see sendGo_fuel_models_retry_test),
which makes every branch kernel-computable.

Branches, in source order:
* lines 202-205: if sentIds[data.id] return Promise.resolve() — no
  network call, state untouched;
* lines 208-212: the queue-size trim;
* lines 229-256: 2xx — success path, promise resolves;
* lines 269-277: attempt < MAX_RETRIES — schedule the backoff delay
  RETRY_DELAY_BASE * 2 ^ attempt and recurse; the continuation
  .then(reject).catch(reject) rejects the outer promise whichever way
  the retry settles;
* lines 278-301: retries exhausted — Logger.error (which itself bumps
  total_failed), then the deduplicated enqueue, then reject. -/
def sendGo (net : Nat → NetOutcome) (data : Payload) :
    Nat → Nat → St → SendOut
  | fuel, attempt, s =>
    if (s.sentIds.lookup data.id).isSome then
      ⟨s, .resolved, 0, []⟩
    else
      let s' := trimQueue s
      match outcomeErr (net attempt) with
      | none => ⟨succeedSt s' data, .resolved, 1, []⟩
      | some code =>
        match fuel with
        | f + 1 =>
          let inner := sendGo net data f (attempt + 1) s'
          ⟨inner.state, .rejected, inner.calls + 1,
            (RETRY_DELAY_BASE * 2 ^ attempt) :: inner.delays⟩
        | 0 => ⟨pushFailed (loggerError s') data code, .rejected, 1, []⟩

/-- sendToWebhook(data, attempt) (line 200). -/
def sendToWebhook (net : Nat → NetOutcome) (data : Payload)
    (attempt : Nat) (s : St) : SendOut :=
  sendGo net data (MAX_RETRIES - attempt) attempt s

/-- The fuel encoding agrees with the source's test
attempt < CONFIG.MAX_RETRIES for every attempt number. -/
theorem sendGo_fuel_models_retry_test (attempt : Nat) :
    MAX_RETRIES - attempt ≠ 0 ↔ attempt < MAX_RETRIES := by
  simp [MAX_RETRIES]
  omega

-- ============================================================
-- Clip handler with validation (lines 350-387)
-- ============================================================

/-- The validation of one clip (lines 358-363):
    clip.id && clip.status === "complete" && !clip.is_trashed &&
    clip.audio_url && !sentIds[clip.id]. -/
def validClip (s : St) (clip : JSValue) : Bool :=
  truthy (jget clip "id")
  && isCompleteStr (jget clip "status")
  && !truthy (jget clip "is_trashed")
  && truthy (jget clip "audio_url")
  && !(s.sentIds.lookup (jsToString (jget clip "id"))).isSome

/-- The payload construction (lines 367-375), with the || fallback
chains of the source (a truthy field is kept raw, otherwise the
documented default applies).  image_url is intentionally omitted by
the source. -/
def mkPayload (clip : JSValue) : Payload :=
  { id := jsToString (jget clip "id")
  , title :=
      if truthy (jget clip "title") then jget clip "title"
      else .str ("Suno Track " ++ jsToString (jget clip "id"))
  , tags :=
      if truthy (jget (jget clip "metadata") "tags") then jget (jget clip "metadata") "tags"
      else .str "Electronic"
  , audio_url := jget clip "audio_url"
  , duration :=
      if truthy (jget (jget clip "metadata") "duration") then jget (jget clip "metadata") "duration"
      else .num 120
  , status := jget clip "status" }

/-- Processing of a single clip inside handleClips (lines 354-381):
skip falsy clips, skip invalid or already-sent clips, otherwise
dispatch sendToWebhook(payload) whose rejection is caught by
.catch(err => Logger.error(...)) (lines 377-379).  The per-id network
oracle assigns each payload id its own attempt outcomes. -/
def handleOneClip (net : String → Nat → NetOutcome) (s : St) (clip : JSValue) : St :=
  if truthy clip = false then s
  else if validClip s clip = false then s
  else
    let payload := mkPayload clip
    let out := sendToWebhook (net payload.id) payload 1 s
    match out.result with
    | .resolved => out.state
    | .rejected => loggerError out.state

/-- handleClips (lines 350-387): non-arrays are replaced by the empty
list; the clips are processed in order (the dispatched deliveries are
modelled sequentially, cf. the single-threaded scheduling model). -/
def handleClips (net : String → Nat → NetOutcome) (rawClips : JSValue) (s : St) : St :=
  match rawClips with
  | .arr clips => clips.foldl (handleOneClip net) s
  | _ => s

-- ============================================================
-- Batch replay of the failed queue (lines 307-333)
-- ============================================================

/-- Observable result of retryFailedQueue: final state, total network
calls, the successCount aggregate, and the batch delays awaited (one
BATCH_DELAY after each item counted as a success). -/
structure ReplayOut where
  state : St
  calls : Nat
  successCount : Nat
  delays : List Nat

/-- One iteration of the for-loop of retryFailedQueue (lines 319-329):
await sendToWebhook(item, 1); on resolution increment successCount and
await the BATCH_DELAY; on rejection the catch block logs the failure
via Logger.error. -/
def replayStep (net : String → Nat → NetOutcome) (acc : ReplayOut)
    (item : FailedItem) : ReplayOut :=
  let out := sendToWebhook (net item.payload.id) item.payload 1 acc.state
  match out.result with
  | .resolved =>
    ⟨out.state, acc.calls + out.calls, acc.successCount + 1, acc.delays ++ [BATCH_DELAY]⟩
  | .rejected =>
    ⟨loggerError out.state, acc.calls + out.calls, acc.successCount, acc.delays⟩

/-- retryFailedQueue (lines 307-333): an empty queue returns at once
(zero network calls); otherwise the snapshot [...failedQueue] is taken
and iterated sequentially. -/
def retryFailedQueue (net : String → Nat → NetOutcome) (s : St) : ReplayOut :=
  if s.failedQueue.isEmpty then ⟨s, 0, 0, []⟩
  else s.failedQueue.foldl (replayStep net) ⟨s, 0, 0, []⟩

-- ============================================================
-- Health check (lines 167-192)
-- ============================================================

/-- Outcome of the health-check fetch: a settled HTTP response with a
status, or a thrown error (network failure) landing in the catch. -/
inductive ProbeOutcome where
  | status (code : Nat)
  | exn
deriving DecidableEq

/-- performHealthCheck (lines 167-192): response.ok (a 2xx status)
stores the LAST_HEALTH_CHECK timestamp and returns true; a non-ok
status only warns; a thrown error runs Logger.error — which increments
stats.total_failed — and returns false. -/
def performHealthCheck (o : ProbeOutcome) (s : St) : St × Bool :=
  match o with
  | .status c =>
    if 200 ≤ c ∧ c < 300 then ({ s with lastHealth := some s.time }, true)
    else (s, false)
  | .exn => (loggerError s, false)

-- ============================================================
-- Hardened fetch interceptor (lines 392-427)
-- ============================================================

/-- The tracker blocklist (line 402). -/
def blockedList : List String := ["stratovibe", "sentry", "segment", "agentio", "analytics"]

/-- Contiguous-subsequence search over character lists. -/
def charsInclude (needle : List Char) : List Char → Bool
  | [] => needle.isEmpty
  | c :: rest => needle.isPrefixOf (c :: rest) || charsInclude needle rest

/-- url.includes(fragment). -/
def urlIncludes (url fragment : String) : Bool :=
  charsInclude fragment.toList url.toList

/-- blocked.some(b => url.includes(b)) (line 403). -/
def isBlockedUrl (url : String) : Bool :=
  blockedList.any (fun b => urlIncludes url b)

/-- The Suno-API allow-pattern (line 413). -/
def isSunoApi (url : String) : Bool :=
  urlIncludes url "suno.com/api" || urlIncludes url "clerk.suno.com"

/-- What the wrapped fetch hands back to the page: the original
response object, or the synthetic blocked-by-god-mode 200 response. -/
inductive FetchResp (ρ : Type) where
  | original (r : ρ)
  | blockedSynthetic

/-- The wrapped unsafeWindow.fetch (lines 394-427).  originalFetch is
the page's real fetch; decodeBody is clone.json() on the duplicated
body, which either yields a decoded JSValue or fails (non-JSON).  The
blocklist short-circuits with the synthetic response; otherwise the
original response is returned, and for Suno-API urls the duplicated
body is parsed and handed to handleClips, a decode failure being
silently swallowed (lines 421-423). -/
def wrappedFetch {ρ : Type} (net : String → Nat → NetOutcome)
    (originalFetch : String → ρ) (decodeBody : ρ → Except Unit JSValue)
    (url : String) (s : St) : FetchResp ρ × St :=
  if isBlockedUrl url then (.blockedSynthetic, s)
  else
    let response := originalFetch url
    let s' :=
      if isSunoApi url then
        match decodeBody response with
        | .ok data =>
          let clips := parseClips data
          if jsLengthTruthy clips then handleClips net clips s else s
        | .error _ => s
      else s
    (.original response, s')

-- ============================================================
-- Manual control panel and menu commands (lines 517-556)
-- ============================================================

/-- The mock clip built by the PUSH TO PIPELINE button (lines 524-531). -/
def mockClip (id : String) : JSValue :=
  .obj [("id", .str id), ("title", .str "Manual Override"),
        ("audio_url", .str ("https://cdn1.suno.ai/" ++ id ++ ".mp3")),
        ("image_url", .str ("https://cdn1.suno.ai/image_" ++ id ++ ".png")),
        ("status", .str "complete"),
        ("metadata", .obj [("tags", .str "manual_trigger")])]

/-- The button handler (lines 517-533): trim the input, bail out on an
empty id, otherwise push the mock clip through handleClips. -/
def manualPush (net : String → Nat → NetOutcome) (rawId : String) (s : St) : St :=
  let id := rawId.trim
  if id = "" then s
  else handleClips net (.arr [mockClip id]) s

/-- The state-mutating entry points of the script: an intercepted fetch
(carrying the decode outcome of the duplicated body), a manual replay,
a health probe, a manual push, and the clear-sent-cache menu command
(lines 550-556). -/
inductive Event where
  | fetch (url : String) (dec : Except Unit JSValue)
  | replay
  | health (o : ProbeOutcome)
  | manual (rawId : String)
  | clearCache

/-- State transition of one event. -/
def stepEvent (net : String → Nat → NetOutcome) (s : St) : Event → St
  | .fetch url dec => (wrappedFetch net (fun _ => ()) (fun _ => dec) url s).2
  | .replay => (retryFailedQueue net s).state
  | .health o => (performHealthCheck o s).1
  | .manual rawId => manualPush net rawId s
  | .clearCache => { s with sentIds := [] }

/-- A whole execution: fold the events over the initial state. -/
def run (net : String → Nat → NetOutcome) (events : List Event) (s : St) : St :=
  events.foldl (stepEvent net) s

-- ============================================================
-- The Entity Parser as the specification words it (§4.2)
-- ============================================================

/-- A probe result counts as a non-empty match when it is a sequence
with at least one element. -/
def specNonEmptySeq : JSValue → Bool
  | .arr (_ :: _) => true
  | _ => false

/-- First non-empty match among an ordered list of nested locations. -/
def probeNonEmpty (body : JSValue) : List (List String) → Option JSValue
  | [] => none
  | p :: ps =>
    if specNonEmptySeq (getPath body p) then some (getPath body p)
    else probeNonEmpty body ps

/-- Modelled from the spec: the Entity Parser of §4.2, which the source
file does not implement in this form — "If body is already a sequence,
return it unchanged. Otherwise probe a fixed, ordered list of known
nested locations (e.g., a clips field, a result field, nested
data.clips, project.clips, response.clips) and return the first
non-empty match. If body itself exposes the identity fields of a
single entity, return a one-element sequence containing it. Otherwise
return an empty sequence."  The identity fields of an entity are its
identifier and primary asset URL (§3, DeliveryRecord). -/
def specParse (body : JSValue) : JSValue :=
  if body.isArr then body
  else
    match probeNonEmpty body
        [["clips"], ["result"], ["data", "clips"], ["project", "clips"], ["response", "clips"]] with
    | some v => v
    | none =>
      if truthy (jget body "id") && truthy (jget body "audio_url") then .arr [body]
      else .arr []

/-- First truthy value among an ordered list of probe paths. -/
def probeFirstTruthy (body : JSValue) : List (List String) → JSValue
  | [] => .arr []
  | p :: ps =>
    if truthy (getPath body p) then getPath body p
    else probeFirstTruthy body ps

/-- The amended parser contract, written as an ordered probe chain: a
falsy input yields the empty sequence, a sequence is returned
unchanged, and otherwise the first truthy value among clips, result,
project.clips is returned (even when that value is an empty sequence
or not a sequence at all), the empty sequence being the final
fallback. -/
def amendedParse (body : JSValue) : JSValue :=
  if truthy body = false then .arr []
  else if body.isArr then body
  else probeFirstTruthy body [["clips"], ["result"], ["project", "clips"]]

-- ============================================================
-- Helper lemmas about the state operations
-- ============================================================

theorem trimQueue_sentIds (s : St) : (trimQueue s).sentIds = s.sentIds := by
  simp only [trimQueue]
  split <;> rfl

theorem trimQueue_stats (s : St) : (trimQueue s).stats = s.stats := by
  simp only [trimQueue]
  split <;> rfl

theorem trimQueue_time (s : St) : (trimQueue s).time = s.time := by
  simp only [trimQueue]
  split <;> rfl

theorem trimQueue_len_le (s : St) : (trimQueue s).failedQueue.length ≤ 49 := by
  simp only [trimQueue]
  split
  · next hge =>
    simp only [List.length_drop]
    simp only [MAX_QUEUE_SIZE] at hge
    omega
  · next hlt =>
    simp only [MAX_QUEUE_SIZE] at hlt
    omega

theorem trimQueue_sublist (s : St) :
    List.Sublist (trimQueue s).failedQueue s.failedQueue := by
  simp only [trimQueue]
  split
  · exact List.drop_sublist _ _
  · exact List.Sublist.refl _

theorem trimQueue_of_small (s : St) (h : s.failedQueue.length < MAX_QUEUE_SIZE) :
    trimQueue s = s := by
  simp only [trimQueue]
  split
  · next hge => omega
  · rfl

theorem trimQueue_idem (s : St) : trimQueue (trimQueue s) = trimQueue s := by
  apply trimQueue_of_small
  have := trimQueue_len_le s
  simp only [MAX_QUEUE_SIZE]
  omega

theorem loggerError_failedQueue (s : St) : (loggerError s).failedQueue = s.failedQueue := rfl

theorem loggerError_sentIds (s : St) : (loggerError s).sentIds = s.sentIds := rfl

theorem loggerError_time (s : St) : (loggerError s).time = s.time := rfl

theorem loggerError_total_failed (s : St) :
    (loggerError s).stats.total_failed = s.stats.total_failed + 1 := rfl

theorem loggerError_total_sent (s : St) :
    (loggerError s).stats.total_sent = s.stats.total_sent := rfl

theorem pushFailed_sentIds (s : St) (data : Payload) (code : ErrCode) :
    (pushFailed s data code).sentIds = s.sentIds := by
  simp only [pushFailed]
  split <;> rfl

theorem pushFailed_stats (s : St) (data : Payload) (code : ErrCode) :
    (pushFailed s data code).stats = s.stats := by
  simp only [pushFailed]
  split <;> rfl

theorem pushFailed_len_le (s : St) (data : Payload) (code : ErrCode) :
    (pushFailed s data code).failedQueue.length ≤ s.failedQueue.length + 1 := by
  simp only [pushFailed]
  split
  · omega
  · simp

/-- The enqueue of a fresh id appends exactly one item. -/
theorem pushFailed_fresh (s : St) (data : Payload) (code : ErrCode)
    (h : s.failedQueue.any (fun item => item.payload.id == data.id) = false) :
    (pushFailed s data code).failedQueue = s.failedQueue ++ [⟨data, s.time, code⟩] := by
  simp only [pushFailed, h]
  rfl

/-- After the deduplicated enqueue, an id occurring at most once occurs
exactly once. -/
theorem pushFailed_count (s : St) (data : Payload) (code : ErrCode)
    (h : (s.failedQueue.filter (fun item => item.payload.id == data.id)).length ≤ 1) :
    ((pushFailed s data code).failedQueue.filter
      (fun item => item.payload.id == data.id)).length = 1 := by
  simp only [pushFailed]
  split
  · next hany =>
    rcases List.any_eq_true.mp hany with ⟨x, hx, hpx⟩
    have hmem : x ∈ s.failedQueue.filter (fun item => item.payload.id == data.id) :=
      List.mem_filter.mpr ⟨hx, hpx⟩
    have hpos : 0 < (s.failedQueue.filter (fun item => item.payload.id == data.id)).length :=
      List.length_pos.mpr (List.ne_nil_of_mem hmem)
    omega
  · next hany =>
    have hfalse : s.failedQueue.any (fun item => item.payload.id == data.id) = false :=
      Bool.eq_false_iff.mpr hany
    have hnil : s.failedQueue.filter (fun item => item.payload.id == data.id) = [] :=
      List.filter_eq_nil_iff.mpr (List.any_eq_false.mp hfalse)
    simp [List.filter_append, hnil, beq_self_eq_true]

theorem succeedSt_sentIds_lookup (s : St) (data : Payload) :
    ((succeedSt s data).sentIds.lookup data.id) = some ⟨s.time, data.title⟩ := by
  simp [succeedSt, List.lookup]

theorem succeedSt_len_le (s : St) (data : Payload) :
    (succeedSt s data).failedQueue.length ≤ s.failedQueue.length := by
  simp only [succeedSt]
  exact List.length_filter_le _ _

-- ============================================================
-- sendGo: one lemma for each source branch
-- ============================================================

theorem sendGo_skip (net : Nat → NetOutcome) (data : Payload) (fuel attempt : Nat) (s : St)
    (h : (s.sentIds.lookup data.id).isSome = true) :
    sendGo net data fuel attempt s = ⟨s, .resolved, 0, []⟩ := by
  rw [sendGo]
  simp [h]

theorem sendGo_success (net : Nat → NetOutcome) (data : Payload) (fuel attempt : Nat) (s : St)
    (h : s.sentIds.lookup data.id = none)
    (ho : outcomeErr (net attempt) = none) :
    sendGo net data fuel attempt s = ⟨succeedSt (trimQueue s) data, .resolved, 1, []⟩ := by
  rw [sendGo]
  simp [h, ho]

theorem sendGo_retry (net : Nat → NetOutcome) (data : Payload) (f attempt : Nat) (s : St)
    (code : ErrCode)
    (h : s.sentIds.lookup data.id = none)
    (ho : outcomeErr (net attempt) = some code) :
    sendGo net data (f + 1) attempt s =
      ⟨(sendGo net data f (attempt + 1) (trimQueue s)).state, .rejected,
        (sendGo net data f (attempt + 1) (trimQueue s)).calls + 1,
        (RETRY_DELAY_BASE * 2 ^ attempt) :: (sendGo net data f (attempt + 1) (trimQueue s)).delays⟩ := by
  rw [sendGo]
  simp [h, ho]

theorem sendGo_exhaust (net : Nat → NetOutcome) (data : Payload) (attempt : Nat) (s : St)
    (code : ErrCode)
    (h : s.sentIds.lookup data.id = none)
    (ho : outcomeErr (net attempt) = some code) :
    sendGo net data 0 attempt s =
      ⟨pushFailed (loggerError (trimQueue s)) data code, .rejected, 1, []⟩ := by
  rw [sendGo]
  simp [h, ho]

/-- A delivery whose three attempts all fail: the promise rejects after
three network calls with the two backoff delays scheduled, and the
final state is the permanent-failure state. -/
theorem sendExhaustAll (net : Nat → NetOutcome) (p : Payload) (s : St)
    (c1 c2 c3 : ErrCode)
    (h : s.sentIds.lookup p.id = none)
    (h1 : outcomeErr (net 1) = some c1)
    (h2 : outcomeErr (net 2) = some c2)
    (h3 : outcomeErr (net 3) = some c3) :
    sendToWebhook net p 1 s =
      ⟨pushFailed (loggerError (trimQueue s)) p c3, .rejected, 3,
        [RETRY_DELAY_BASE * 2 ^ 1, RETRY_DELAY_BASE * 2 ^ 2]⟩ := by
  have hA : (trimQueue s).sentIds.lookup p.id = none := by
    rw [trimQueue_sentIds]; exact h
  have e3 : sendGo net p 0 3 (trimQueue s) =
      ⟨pushFailed (loggerError (trimQueue (trimQueue s))) p c3, .rejected, 1, []⟩ :=
    sendGo_exhaust net p 3 (trimQueue s) c3 hA h3
  have e2 : sendGo net p 1 2 (trimQueue s) =
      ⟨(sendGo net p 0 3 (trimQueue (trimQueue s))).state, .rejected,
        (sendGo net p 0 3 (trimQueue (trimQueue s))).calls + 1,
        (RETRY_DELAY_BASE * 2 ^ 2) :: (sendGo net p 0 3 (trimQueue (trimQueue s))).delays⟩ :=
    sendGo_retry net p 0 2 (trimQueue s) c2 hA h2
  have e1 : sendGo net p 2 1 s =
      ⟨(sendGo net p 1 2 (trimQueue s)).state, .rejected,
        (sendGo net p 1 2 (trimQueue s)).calls + 1,
        (RETRY_DELAY_BASE * 2 ^ 1) :: (sendGo net p 1 2 (trimQueue s)).delays⟩ :=
    sendGo_retry net p 1 1 s c1 h h1
  show sendGo net p 2 1 s = _
  rw [e1, e2, trimQueue_idem, e3, trimQueue_idem]

/-- A delivery whose first attempt fails and whose scheduled retry
succeeds: the Delivery Engine reaches its success state, but the outer
promise rejects (the retry resolution is wired to the outer reject). -/
theorem sendSecondSuccess (net : Nat → NetOutcome) (p : Payload) (s : St)
    (c1 : ErrCode)
    (h : s.sentIds.lookup p.id = none)
    (h1 : outcomeErr (net 1) = some c1)
    (h2 : outcomeErr (net 2) = none) :
    sendToWebhook net p 1 s =
      ⟨succeedSt (trimQueue s) p, .rejected, 2, [RETRY_DELAY_BASE * 2 ^ 1]⟩ := by
  have hA : (trimQueue s).sentIds.lookup p.id = none := by
    rw [trimQueue_sentIds]; exact h
  have e2 : sendGo net p 1 2 (trimQueue s) =
      ⟨succeedSt (trimQueue (trimQueue s)) p, .resolved, 1, []⟩ :=
    sendGo_success net p 1 2 (trimQueue s) hA h2
  have e1 : sendGo net p 2 1 s =
      ⟨(sendGo net p 1 2 (trimQueue s)).state, .rejected,
        (sendGo net p 1 2 (trimQueue s)).calls + 1,
        (RETRY_DELAY_BASE * 2 ^ 1) :: (sendGo net p 1 2 (trimQueue s)).delays⟩ :=
    sendGo_retry net p 1 1 s c1 h h1
  show sendGo net p 2 1 s = _
  rw [e1, e2, trimQueue_idem]

-- ============================================================
-- Capacity invariant: the failed queue never exceeds MAX_QUEUE_SIZE
-- ============================================================

/-- The retry engine preserves the capacity bound. -/
theorem sendGo_queue_le (net : Nat → NetOutcome) (data : Payload) :
    ∀ (fuel attempt : Nat) (s : St), s.failedQueue.length ≤ MAX_QUEUE_SIZE →
      (sendGo net data fuel attempt s).state.failedQueue.length ≤ MAX_QUEUE_SIZE := by
  intro fuel
  induction fuel with
  | zero =>
    intro attempt s hs
    by_cases hk : (s.sentIds.lookup data.id).isSome = true
    · rw [sendGo_skip net data 0 attempt s hk]
      exact hs
    · have hn : s.sentIds.lookup data.id = none := by
        cases hcase : s.sentIds.lookup data.id with
        | none => rfl
        | some v => rw [hcase] at hk; simp at hk
      cases ho : outcomeErr (net attempt) with
      | none =>
        rw [sendGo_success net data 0 attempt s hn ho]
        have h1 := succeedSt_len_le (trimQueue s) data
        have h2 := trimQueue_len_le s
        simp only [MAX_QUEUE_SIZE]
        omega
      | some code =>
        rw [sendGo_exhaust net data attempt s code hn ho]
        have h1 := pushFailed_len_le (loggerError (trimQueue s)) data code
        rw [loggerError_failedQueue] at h1
        have h2 := trimQueue_len_le s
        simp only [MAX_QUEUE_SIZE]
        omega
  | succ f ih =>
    intro attempt s hs
    by_cases hk : (s.sentIds.lookup data.id).isSome = true
    · rw [sendGo_skip net data (f + 1) attempt s hk]
      exact hs
    · have hn : s.sentIds.lookup data.id = none := by
        cases hcase : s.sentIds.lookup data.id with
        | none => rfl
        | some v => rw [hcase] at hk; simp at hk
      cases ho : outcomeErr (net attempt) with
      | none =>
        rw [sendGo_success net data (f + 1) attempt s hn ho]
        have h1 := succeedSt_len_le (trimQueue s) data
        have h2 := trimQueue_len_le s
        simp only [MAX_QUEUE_SIZE]
        omega
      | some code =>
        rw [sendGo_retry net data f attempt s code hn ho]
        exact ih (attempt + 1) (trimQueue s) (by
          have := trimQueue_len_le s
          simp only [MAX_QUEUE_SIZE]
          omega)

theorem sendToWebhook_queue_le (net : Nat → NetOutcome) (data : Payload)
    (attempt : Nat) (s : St) (hs : s.failedQueue.length ≤ MAX_QUEUE_SIZE) :
    (sendToWebhook net data attempt s).state.failedQueue.length ≤ MAX_QUEUE_SIZE :=
  sendGo_queue_le net data (MAX_RETRIES - attempt) attempt s hs

/-- Folding a bound-preserving step over a list preserves the bound. -/
theorem foldl_preserve {α : Type} (P : St → Prop) (f : St → α → St)
    (hf : ∀ s a, P s → P (f s a)) :
    ∀ (l : List α) (s : St), P s → P (l.foldl f s) := by
  intro l
  induction l with
  | nil => intro s hs; exact hs
  | cons a l ih => intro s hs; exact ih (f s a) (hf s a hs)

theorem handleOneClip_queue_le (net : String → Nat → NetOutcome) (s : St) (clip : JSValue)
    (hs : s.failedQueue.length ≤ MAX_QUEUE_SIZE) :
    (handleOneClip net s clip).failedQueue.length ≤ MAX_QUEUE_SIZE := by
  simp only [handleOneClip]
  split
  · exact hs
  · split
    · exact hs
    · have h1 := sendToWebhook_queue_le (net (mkPayload clip).id) (mkPayload clip) 1 s hs
      split
      · exact h1
      · rw [loggerError_failedQueue]
        exact h1

theorem handleClips_queue_le (net : String → Nat → NetOutcome) (raw : JSValue) (s : St)
    (hs : s.failedQueue.length ≤ MAX_QUEUE_SIZE) :
    (handleClips net raw s).failedQueue.length ≤ MAX_QUEUE_SIZE := by
  cases raw with
  | arr clips =>
    exact foldl_preserve (fun t => t.failedQueue.length ≤ MAX_QUEUE_SIZE)
      (handleOneClip net) (fun t c ht => handleOneClip_queue_le net t c ht) clips s hs
  | null => exact hs
  | bool b => exact hs
  | num n => exact hs
  | str str => exact hs
  | obj fields => exact hs

theorem replayStep_queue_le (net : String → Nat → NetOutcome) (acc : ReplayOut)
    (item : FailedItem) (hs : acc.state.failedQueue.length ≤ MAX_QUEUE_SIZE) :
    (replayStep net acc item).state.failedQueue.length ≤ MAX_QUEUE_SIZE := by
  simp only [replayStep]
  have h1 := sendToWebhook_queue_le (net item.payload.id) item.payload 1 acc.state hs
  split
  · exact h1
  · simpa [loggerError_failedQueue] using h1

theorem retryFailedQueue_queue_le (net : String → Nat → NetOutcome) (s : St)
    (hs : s.failedQueue.length ≤ MAX_QUEUE_SIZE) :
    (retryFailedQueue net s).state.failedQueue.length ≤ MAX_QUEUE_SIZE := by
  simp only [retryFailedQueue]
  split
  · exact hs
  · have : ∀ (l : List FailedItem) (acc : ReplayOut),
        acc.state.failedQueue.length ≤ MAX_QUEUE_SIZE →
        (l.foldl (replayStep net) acc).state.failedQueue.length ≤ MAX_QUEUE_SIZE := by
      intro l
      induction l with
      | nil => intro acc hacc; exact hacc
      | cons a l ih =>
        intro acc hacc
        exact ih (replayStep net acc a) (replayStep_queue_le net acc a hacc)
    exact this s.failedQueue ⟨s, 0, 0, []⟩ hs

theorem performHealthCheck_queue_le (o : ProbeOutcome) (s : St)
    (hs : s.failedQueue.length ≤ MAX_QUEUE_SIZE) :
    (performHealthCheck o s).1.failedQueue.length ≤ MAX_QUEUE_SIZE := by
  cases o with
  | status c =>
    simp only [performHealthCheck]
    split <;> exact hs
  | exn =>
    simp only [performHealthCheck]
    rw [loggerError_failedQueue]
    exact hs

theorem stepEvent_queue_le (net : String → Nat → NetOutcome) (s : St) (e : Event)
    (hs : s.failedQueue.length ≤ MAX_QUEUE_SIZE) :
    (stepEvent net s e).failedQueue.length ≤ MAX_QUEUE_SIZE := by
  cases e with
  | fetch url dec =>
    simp only [stepEvent, wrappedFetch]
    split
    · exact hs
    · split
      · split
        · split
          · exact handleClips_queue_le net _ s hs
          · exact hs
        · exact hs
      · exact hs
  | replay => exact retryFailedQueue_queue_le net s hs
  | health o => exact performHealthCheck_queue_le o s hs
  | manual rawId =>
    simp only [stepEvent, manualPush]
    split
    · exact hs
    · exact handleClips_queue_le net _ s hs
  | clearCache => exact hs

/-- The capacity bound is an invariant of every execution. -/
theorem run_queue_le (net : String → Nat → NetOutcome) (events : List Event) (s : St)
    (hs : s.failedQueue.length ≤ MAX_QUEUE_SIZE) :
    (run net events s).failedQueue.length ≤ MAX_QUEUE_SIZE :=
  foldl_preserve (fun t => t.failedQueue.length ≤ MAX_QUEUE_SIZE)
    (stepEvent net) (fun t e ht => stepEvent_queue_le net t e ht) events s hs

-- ============================================================
-- Further shared helpers
-- ============================================================

theorem sublist_any_false {l1 l2 : List FailedItem} (f : FailedItem → Bool)
    (hsub : List.Sublist l1 l2) (h : l2.any f = false) : l1.any f = false := by
  rw [List.any_eq_false] at h ⊢
  intro x hx
  exact h x (hsub.subset hx)

theorem filter_nil_of_any_false (l : List FailedItem) (f : FailedItem → Bool)
    (h : l.any f = false) : l.filter f = [] :=
  List.filter_eq_nil_iff.mpr (List.any_eq_false.mp h)

/-- A candidate passing the validator is a truthy value (its id field
is truthy, which only an object can provide). -/
theorem validClip_truthy (s : St) (clip : JSValue) (h : validClip s clip = true) :
    truthy clip = true := by
  cases clip <;> simp [validClip, jget, truthy] at h ⊢

/-- A candidate passing the validator has no SentMarker. -/
theorem validClip_not_sent (s : St) (clip : JSValue) (h : validClip s clip = true) :
    s.sentIds.lookup (jsToString (jget clip "id")) = none := by
  simp only [validClip, Bool.and_eq_true] at h
  have hlast := h.2
  cases hcase : s.sentIds.lookup (jsToString (jget clip "id")) with
  | none => rfl
  | some v => rw [hcase] at hlast; simp at hlast

-- ============================================================
-- CLAIM THEOREMS
-- ============================================================

/-- C1 (confirmed): for every call through the wrapped fetch whose URL
does not match the tracker blocklist, the Tap returns the original
call's response unchanged to the caller, and an error raised while
decoding the duplicated response body is swallowed: it changes nothing
and never propagates into the caller's continuation (the wrapper is a
total function whose response component never depends on the decode). -/
theorem spec_C1_tap_transparent {ρ : Type} (net : String → Nat → NetOutcome)
    (originalFetch : String → ρ) (decodeBody : ρ → Except Unit JSValue)
    (url : String) (s : St) (hb : isBlockedUrl url = false) :
    (wrappedFetch net originalFetch decodeBody url s).1
      = FetchResp.original (originalFetch url)
    ∧ (∀ e : Unit, decodeBody (originalFetch url) = .error e →
        (wrappedFetch net originalFetch decodeBody url s).2 = s) := by
  constructor
  · simp [wrappedFetch, hb]
  · intro e he
    simp [wrappedFetch, hb, he]

/-- Witness for C1 at a concrete Suno API url, a concrete original
response, and a decode that fails. -/
theorem spec_C1_tap_transparent_witness :
    (wrappedFetch (fun _ _ => .netErr) (fun _ => (7 : Nat)) (fun _ => .error ())
        "https://suno.com/api/feed?page=1" ⟨[], [], ⟨0, 0, none, 0⟩, none, 0⟩).1
      = FetchResp.original 7
    ∧ (wrappedFetch (fun _ _ => .netErr) (fun _ => (7 : Nat)) (fun _ => .error ())
        "https://suno.com/api/feed?page=1" ⟨[], [], ⟨0, 0, none, 0⟩, none, 0⟩).2
      = ⟨[], [], ⟨0, 0, none, 0⟩, none, 0⟩ := by
  have h := spec_C1_tap_transparent (fun _ _ => .netErr) (fun _ => (7 : Nat))
    (fun _ => .error ()) "https://suno.com/api/feed?page=1"
    ⟨[], [], ⟨0, 0, none, 0⟩, none, 0⟩ (by decide)
  exact ⟨h.1, h.2 () rfl⟩

/-- C2 (confirmed): an identifier already present in the SentMarker
store makes every later validate-and-deliver invocation a no-op: the
engine issues no network call and returns the state unchanged, and the
clip handler drops the candidate without touching the state. -/
theorem spec_C2_sent_marker_idempotent :
    (∀ (net : Nat → NetOutcome) (data : Payload) (attempt : Nat) (s : St),
        (s.sentIds.lookup data.id).isSome = true →
        sendToWebhook net data attempt s = ⟨s, .resolved, 0, []⟩)
    ∧ (∀ (net : String → Nat → NetOutcome) (s : St) (clip : JSValue),
        (s.sentIds.lookup (jsToString (jget clip "id"))).isSome = true →
        handleOneClip net s clip = s) := by
  constructor
  · intro net data attempt s h
    exact sendGo_skip net data (MAX_RETRIES - attempt) attempt s h
  · intro net s clip h
    have hval : validClip s clip = false := by
      simp [validClip, h]
    simp [handleOneClip, hval]

/-- Witness for C2: a state that has already sent id "abc". -/
theorem spec_C2_sent_marker_idempotent_witness :
    sendToWebhook (fun _ => .netErr) ⟨"abc", .str "T", .null, .null, .null, .null⟩ 1
        ⟨[("abc", ⟨0, .str "T"⟩)], [], ⟨1, 0, none, 0⟩, none, 5⟩
      = ⟨⟨[("abc", ⟨0, .str "T"⟩)], [], ⟨1, 0, none, 0⟩, none, 5⟩, .resolved, 0, []⟩
    ∧ handleOneClip (fun _ _ => .netErr)
        ⟨[("abc", ⟨0, .str "T"⟩)], [], ⟨1, 0, none, 0⟩, none, 5⟩
        (.obj [("id", .str "abc"), ("status", .str "complete"),
               ("audio_url", .str "https://x/a.mp3")])
      = ⟨[("abc", ⟨0, .str "T"⟩)], [], ⟨1, 0, none, 0⟩, none, 5⟩ :=
  ⟨spec_C2_sent_marker_idempotent.1 (fun _ => .netErr)
      ⟨"abc", .str "T", .null, .null, .null, .null⟩ 1
      ⟨[("abc", ⟨0, .str "T"⟩)], [], ⟨1, 0, none, 0⟩, none, 5⟩ rfl,
    spec_C2_sent_marker_idempotent.2 (fun _ _ => .netErr)
      ⟨[("abc", ⟨0, .str "T"⟩)], [], ⟨1, 0, none, 0⟩, none, 5⟩
      (.obj [("id", .str "abc"), ("status", .str "complete"),
             ("audio_url", .str "https://x/a.mp3")]) rfl⟩

/-- C3 (confirmed): a record failing exactly MAX_RETRIES consecutive
attempts afterwards appears exactly once in the failed-item store (the
enqueue deduplicates by id) and its identifier is absent from the
SentMarker store; exactly MAX_RETRIES network calls were issued. -/
theorem spec_C3_exhausted_record_parked_once (net : Nat → NetOutcome) (p : Payload)
    (s : St) (c1 c2 c3 : ErrCode)
    (h : s.sentIds.lookup p.id = none)
    (hcount : (s.failedQueue.filter (fun item => item.payload.id == p.id)).length ≤ 1)
    (h1 : outcomeErr (net 1) = some c1)
    (h2 : outcomeErr (net 2) = some c2)
    (h3 : outcomeErr (net 3) = some c3) :
    ((sendToWebhook net p 1 s).state.failedQueue.filter
        (fun item => item.payload.id == p.id)).length = 1
    ∧ (sendToWebhook net p 1 s).state.sentIds.lookup p.id = none
    ∧ (sendToWebhook net p 1 s).calls = MAX_RETRIES := by
  rw [sendExhaustAll net p s c1 c2 c3 h h1 h2 h3]
  refine ⟨?_, ?_, rfl⟩
  · apply pushFailed_count
    rw [loggerError_failedQueue]
    have hsub := (trimQueue_sublist s).filter (fun item => item.payload.id == p.id)
    exact le_trans hsub.length_le hcount
  · rw [pushFailed_sentIds, loggerError_sentIds, trimQueue_sentIds]
    exact h

/-- Witness for C3: a fresh record against an endpoint that always
fails with a network error. -/
theorem spec_C3_exhausted_record_parked_once_witness :
    ((sendToWebhook (fun _ => .netErr) ⟨"abc", .str "T", .null, .null, .null, .null⟩ 1
        ⟨[], [], ⟨0, 0, none, 0⟩, none, 0⟩).state.failedQueue.filter
          (fun item => item.payload.id == "abc")).length = 1
    ∧ (sendToWebhook (fun _ => .netErr) ⟨"abc", .str "T", .null, .null, .null, .null⟩ 1
        ⟨[], [], ⟨0, 0, none, 0⟩, none, 0⟩).state.sentIds.lookup "abc" = none
    ∧ (sendToWebhook (fun _ => .netErr) ⟨"abc", .str "T", .null, .null, .null, .null⟩ 1
        ⟨[], [], ⟨0, 0, none, 0⟩, none, 0⟩).calls = MAX_RETRIES :=
  spec_C3_exhausted_record_parked_once (fun _ => .netErr)
    ⟨"abc", .str "T", .null, .null, .null, .null⟩
    ⟨[], [], ⟨0, 0, none, 0⟩, none, 0⟩ .network .network .network
    rfl (by decide) rfl rfl rfl

/-- C5 (confirmed): in a retry chain, the delay scheduled after failed
attempt k (1 ≤ k < MAX_RETRIES) equals RETRY_DELAY_BASE * 2 ^ k, and
the scheduled delays are strictly increasing. -/
theorem spec_C5_backoff_delays (net : Nat → NetOutcome) (p : Payload)
    (s : St) (c1 c2 c3 : ErrCode)
    (h : s.sentIds.lookup p.id = none)
    (h1 : outcomeErr (net 1) = some c1)
    (h2 : outcomeErr (net 2) = some c2)
    (h3 : outcomeErr (net 3) = some c3) :
    (∀ k, 1 ≤ k → k < MAX_RETRIES →
        (sendToWebhook net p 1 s).delays[k - 1]? = some (RETRY_DELAY_BASE * 2 ^ k))
    ∧ List.Pairwise (fun a b => a < b) (sendToWebhook net p 1 s).delays := by
  rw [sendExhaustAll net p s c1 c2 c3 h h1 h2 h3]
  constructor
  · intro k hk1 hk2
    simp only [MAX_RETRIES] at hk2
    interval_cases k
    · rfl
    · rfl
  · simp [RETRY_DELAY_BASE]

/-- Witness for C5 at the same concrete inputs as C3. -/
theorem spec_C5_backoff_delays_witness :
    (∀ k, 1 ≤ k → k < MAX_RETRIES →
        (sendToWebhook (fun _ => .netErr) ⟨"abc", .str "T", .null, .null, .null, .null⟩ 1
          ⟨[], [], ⟨0, 0, none, 0⟩, none, 0⟩).delays[k - 1]?
        = some (RETRY_DELAY_BASE * 2 ^ k))
    ∧ List.Pairwise (fun a b => a < b)
        (sendToWebhook (fun _ => .netErr) ⟨"abc", .str "T", .null, .null, .null, .null⟩ 1
          ⟨[], [], ⟨0, 0, none, 0⟩, none, 0⟩).delays :=
  spec_C5_backoff_delays (fun _ => .netErr)
    ⟨"abc", .str "T", .null, .null, .null, .null⟩
    ⟨[], [], ⟨0, 0, none, 0⟩, none, 0⟩ .network .network .network
    rfl rfl rfl rfl

/-- C4 (confirmed): the failed-item queue never exceeds capacity 50
along any execution, and an insertion cycle starting from a queue at
capacity evicts the oldest items, keeping exactly the newest 20 before
the new item is appended. -/
theorem spec_C4_capacity_and_eviction :
    (∀ (net : String → Nat → NetOutcome) (events : List Event) (s : St),
        s.failedQueue.length ≤ MAX_QUEUE_SIZE →
        (run net events s).failedQueue.length ≤ MAX_QUEUE_SIZE)
    ∧ (∀ (net : Nat → NetOutcome) (p : Payload) (s : St) (c1 c2 c3 : ErrCode),
        s.failedQueue.length = MAX_QUEUE_SIZE →
        s.sentIds.lookup p.id = none →
        s.failedQueue.any (fun item => item.payload.id == p.id) = false →
        outcomeErr (net 1) = some c1 →
        outcomeErr (net 2) = some c2 →
        outcomeErr (net 3) = some c3 →
        (sendToWebhook net p 1 s).state.failedQueue
          = s.failedQueue.drop 30 ++ [⟨p, s.time, c3⟩]
        ∧ (s.failedQueue.drop 30).length = 20) := by
  constructor
  · exact run_queue_le
  · intro net p s c1 c2 c3 hlen hsent hfresh h1 h2 h3
    have hlen50 : s.failedQueue.length = 50 := by
      simpa [MAX_QUEUE_SIZE] using hlen
    have hc : s.failedQueue.length ≥ MAX_QUEUE_SIZE := le_of_eq hlen.symm
    have h30 : s.failedQueue.length - 20 = 30 := by omega
    have htrimq : (trimQueue s).failedQueue = s.failedQueue.drop 30 := by
      simp only [trimQueue, if_pos hc]
      rw [h30]
    have hfresh' : (loggerError (trimQueue s)).failedQueue.any
        (fun item => item.payload.id == p.id) = false := by
      rw [loggerError_failedQueue]
      exact sublist_any_false _ (trimQueue_sublist s) hfresh
    rw [sendExhaustAll net p s c1 c2 c3 hsent h1 h2 h3]
    constructor
    · rw [pushFailed_fresh _ p c3 hfresh', loggerError_failedQueue, loggerError_time,
        trimQueue_time, htrimq]
    · rw [List.length_drop, hlen50]

/-- Witness for C4: a short concrete execution, and an eviction from a
concrete queue of 50 distinct items. -/
theorem spec_C4_capacity_and_eviction_witness :
    (run (fun _ _ => .netErr) [.replay, .health .exn, .clearCache]
        ⟨[], [], ⟨0, 0, none, 0⟩, none, 0⟩).failedQueue.length ≤ MAX_QUEUE_SIZE
    ∧ (sendToWebhook (fun _ => .netErr) ⟨"x", .str "X", .null, .null, .null, .null⟩ 1
        ⟨[], (List.range 50).map
            (fun n => ⟨⟨toString n, .null, .null, .null, .null, .null⟩, 0, .network⟩),
          ⟨0, 0, none, 0⟩, none, 0⟩).state.failedQueue
      = ((List.range 50).map
            (fun n => ⟨⟨toString n, .null, .null, .null, .null, .null⟩, 0, .network⟩)).drop 30
        ++ [⟨⟨"x", .str "X", .null, .null, .null, .null⟩, 0, .network⟩] :=
  ⟨spec_C4_capacity_and_eviction.1 (fun _ _ => .netErr) [.replay, .health .exn, .clearCache]
      ⟨[], [], ⟨0, 0, none, 0⟩, none, 0⟩ (by decide),
    (spec_C4_capacity_and_eviction.2 (fun _ => .netErr)
      ⟨"x", .str "X", .null, .null, .null, .null⟩
      ⟨[], (List.range 50).map
          (fun n => ⟨⟨toString n, .null, .null, .null, .null, .null⟩, 0, .network⟩),
        ⟨0, 0, none, 0⟩, none, 0⟩ .network .network .network
      (by decide) rfl (by decide) rfl rfl rfl).1⟩

/-- C10 (confirmed): a record whose first delivery attempt fails and
whose scheduled retry succeeds reaches the engine's success state (the
SentMarker is written and the matching FailedItem removed), yet the
promise handed to the original caller rejects, so replayAll counts the
item as a failure in its aggregated success count. -/
theorem spec_C10_retry_success_still_rejects (net : String → Nat → NetOutcome)
    (item : FailedItem) (s : St) (c1 : ErrCode)
    (hq : s.failedQueue = [item])
    (hs : s.sentIds.lookup item.payload.id = none)
    (h1 : outcomeErr (net item.payload.id 1) = some c1)
    (h2 : outcomeErr (net item.payload.id 2) = none) :
    (sendToWebhook (net item.payload.id) item.payload 1 s).result = .rejected
    ∧ ((sendToWebhook (net item.payload.id) item.payload 1 s).state.sentIds.lookup
        item.payload.id).isSome = true
    ∧ (sendToWebhook (net item.payload.id) item.payload 1 s).state.failedQueue = []
    ∧ (retryFailedQueue net s).successCount = 0
    ∧ ((retryFailedQueue net s).state.sentIds.lookup item.payload.id).isSome = true
    ∧ (retryFailedQueue net s).state.failedQueue = [] := by
  have hsmall : trimQueue s = s :=
    trimQueue_of_small s (by rw [hq]; simp [MAX_QUEUE_SIZE])
  have hsend := sendSecondSuccess (net item.payload.id) item.payload s c1 hs h1 h2
  rw [hsmall] at hsend
  have hsucc_sent :
      ((succeedSt s item.payload).sentIds.lookup item.payload.id).isSome = true := by
    rw [succeedSt_sentIds_lookup]
    rfl
  have hsucc_queue : (succeedSt s item.payload).failedQueue = [] := by
    simp only [succeedSt, saveStats]
    rw [hq]
    simp
  have hrq : retryFailedQueue net s =
      replayStep net ⟨s, 0, 0, []⟩ item := by
    simp only [retryFailedQueue, hq]
    rfl
  have hstep : replayStep net ⟨s, 0, 0, []⟩ item =
      ⟨loggerError (succeedSt s item.payload), 0 + 2, 0, []⟩ := by
    simp only [replayStep, hsend]
  refine ⟨by rw [hsend], by rw [hsend]; exact hsucc_sent, by rw [hsend]; exact hsucc_queue,
    ?_, ?_, ?_⟩
  · rw [hrq, hstep]
  · rw [hrq, hstep]
    show ((loggerError (succeedSt s item.payload)).sentIds.lookup item.payload.id).isSome = true
    rw [loggerError_sentIds]
    exact hsucc_sent
  · rw [hrq, hstep]
    show (loggerError (succeedSt s item.payload)).failedQueue = []
    rw [loggerError_failedQueue]
    exact hsucc_queue

/-- Witness for C10: a single parked record, a network error on the
first attempt, a 200 on the retry. -/
theorem spec_C10_retry_success_still_rejects_witness :
    (retryFailedQueue (fun _ k => if k == 1 then .netErr else .status 200)
        ⟨[], [⟨⟨"xyz", .str "T", .null, .null, .null, .null⟩, 0, .timeout⟩],
          ⟨0, 0, none, 0⟩, none, 0⟩).successCount = 0
    ∧ ((retryFailedQueue (fun _ k => if k == 1 then .netErr else .status 200)
        ⟨[], [⟨⟨"xyz", .str "T", .null, .null, .null, .null⟩, 0, .timeout⟩],
          ⟨0, 0, none, 0⟩, none, 0⟩).state.sentIds.lookup "xyz").isSome = true
    ∧ (retryFailedQueue (fun _ k => if k == 1 then .netErr else .status 200)
        ⟨[], [⟨⟨"xyz", .str "T", .null, .null, .null, .null⟩, 0, .timeout⟩],
          ⟨0, 0, none, 0⟩, none, 0⟩).state.failedQueue = [] := by
  have h := spec_C10_retry_success_still_rejects
    (fun _ k => if k == 1 then .netErr else .status 200)
    ⟨⟨"xyz", .str "T", .null, .null, .null, .null⟩, 0, .timeout⟩
    ⟨[], [⟨⟨"xyz", .str "T", .null, .null, .null, .null⟩, 0, .timeout⟩],
      ⟨0, 0, none, 0⟩, none, 0⟩ .network rfl rfl rfl rfl
  exact ⟨h.2.2.2.1, h.2.2.2.2.1, h.2.2.2.2.2⟩

-- ============================================================
-- C6: the Entity Parser contract
-- ============================================================

/-- The single entity nested under data.clips in the C6 counterexample. -/
def c6cexEntity : JSValue := .obj [("id", .str "a"), ("audio_url", .str "u")]

/-- A response body nesting its clips under data.clips: the spec's
parser contract extracts them, the implementation does not. -/
def c6cex : JSValue := .obj [("data", .obj [("clips", .arr [c6cexEntity])])]

/-- C6 counterexample (claim corrected): parseClips does not implement
the spec's probe list — on a body nesting the sequence under
data.clips it returns the empty sequence while the specified parser
returns the nested sequence.  (The same divergence occurs for
response.clips and for a bare single entity, and a truthy-but-empty
clips field shadows a non-empty result field.) -/
theorem spec_C6_parse_counterexample : parseClips c6cex ≠ specParse c6cex := by
  have h1 : parseClips c6cex = .arr [] := rfl
  have h2 : specParse c6cex = .arr [c6cexEntity] := rfl
  rw [h1, h2]
  intro h
  injection h with h3
  exact List.noConfusion h3

/-- C6 amended (proved): parseClips is a deterministic pure function
equal to the ordered probe chain that returns a sequence input
unchanged and otherwise the first truthy value among the clips,
result, project.clips locations (a truthy empty sequence already
matches), with the empty sequence for every other input; the
data.clips and response.clips locations are never probed and a single
entity is never wrapped. -/
theorem spec_C6_parse_contract_amended (source : JSValue) :
    parseClips source = amendedParse source := by
  rfl

-- ============================================================
-- C7: the all-500 scenario
-- ============================================================

/-- An endpoint answering HTTP 500 to everything. -/
def c7net : String → Nat → NetOutcome := fun _ _ => .status 500

/-- A pristine state. -/
def c7state : St := ⟨[], [], ⟨0, 0, none, 0⟩, none, 0⟩

/-- The scenario candidate of §8 of the specification. -/
def c7clip : JSValue :=
  .obj [("id", .str "abc"), ("status", .str "complete"),
        ("audio_url", .str "https://x/a.mp3"), ("title", .str "Song A")]

/-- C7 counterexample (claim corrected): delivering a fresh valid
record through the automatic path against an endpoint returning 500 on
all three attempts increments totalFailed twice, not once — the
permanent-failure log inside handleSendError and the dispatch catch
handler in handleClips each run Logger.error, and Logger.error bumps
the counter. -/
theorem spec_C7_counterexample :
    (handleOneClip c7net c7state c7clip).stats.total_failed = 2
    ∧ ¬ ((handleOneClip c7net c7state c7clip).stats.total_failed
          = c7state.stats.total_failed + 1) := by
  constructor
  · rfl
  · decide

/-- C7 amended (proved): if the endpoint returns HTTP 500 on all three
delivery attempts for a fresh valid record delivered through the
automatic path, then afterwards the record is present exactly once in
the failed-item store with failure code 500, its identifier is absent
from SentMarker (the store is unchanged), and totalFailed has been
incremented exactly twice — once by the engine's permanent-failure
log and once by the dispatch catch handler — while totalSent is
unchanged. -/
theorem spec_C7_all_500_amended (net : String → Nat → NetOutcome) (s : St)
    (clip : JSValue)
    (hv : validClip s clip = true)
    (hfresh : s.failedQueue.any
        (fun item => item.payload.id == (mkPayload clip).id) = false)
    (h1 : net (mkPayload clip).id 1 = .status 500)
    (h2 : net (mkPayload clip).id 2 = .status 500)
    (h3 : net (mkPayload clip).id 3 = .status 500) :
    (handleOneClip net s clip).failedQueue.filter
        (fun item => item.payload.id == (mkPayload clip).id)
      = [⟨mkPayload clip, s.time, .http 500⟩]
    ∧ (handleOneClip net s clip).sentIds = s.sentIds
    ∧ (handleOneClip net s clip).stats.total_failed = s.stats.total_failed + 2
    ∧ (handleOneClip net s clip).stats.total_sent = s.stats.total_sent := by
  have htr : truthy clip = true := validClip_truthy s clip hv
  have hsent : s.sentIds.lookup (mkPayload clip).id = none := validClip_not_sent s clip hv
  have ho1 : outcomeErr (net (mkPayload clip).id 1) = some (.http 500) := by
    rw [h1]; rfl
  have ho2 : outcomeErr (net (mkPayload clip).id 2) = some (.http 500) := by
    rw [h2]; rfl
  have ho3 : outcomeErr (net (mkPayload clip).id 3) = some (.http 500) := by
    rw [h3]; rfl
  have hsend := sendExhaustAll (net (mkPayload clip).id) (mkPayload clip) s
    (.http 500) (.http 500) (.http 500) hsent ho1 ho2 ho3
  have hstep : handleOneClip net s clip
      = loggerError (pushFailed (loggerError (trimQueue s)) (mkPayload clip)
          (ErrCode.http 500)) := by
    simp [handleOneClip, htr, hv, hsend]
  have hfresh2 : (loggerError (trimQueue s)).failedQueue.any
      (fun item => item.payload.id == (mkPayload clip).id) = false := by
    rw [loggerError_failedQueue]
    exact sublist_any_false _ (trimQueue_sublist s) hfresh
  rw [hstep]
  refine ⟨?_, ?_, ?_, ?_⟩
  · rw [loggerError_failedQueue, pushFailed_fresh _ _ _ hfresh2, List.filter_append,
      loggerError_failedQueue,
      filter_nil_of_any_false _ _ (sublist_any_false _ (trimQueue_sublist s) hfresh),
      loggerError_time, trimQueue_time]
    simp [beq_self_eq_true]
  · rw [loggerError_sentIds, pushFailed_sentIds, loggerError_sentIds, trimQueue_sentIds]
  · rw [loggerError_total_failed, pushFailed_stats, loggerError_total_failed, trimQueue_stats]
  · rw [loggerError_total_sent, pushFailed_stats, loggerError_total_sent, trimQueue_stats]

/-- Witness for the amended C7 at the §8 scenario inputs. -/
theorem spec_C7_all_500_amended_witness :
    (handleOneClip c7net c7state c7clip).failedQueue.filter
        (fun item => item.payload.id == (mkPayload c7clip).id)
      = [⟨mkPayload c7clip, c7state.time, .http 500⟩]
    ∧ (handleOneClip c7net c7state c7clip).sentIds = c7state.sentIds
    ∧ (handleOneClip c7net c7state c7clip).stats.total_failed
        = c7state.stats.total_failed + 2
    ∧ (handleOneClip c7net c7state c7clip).stats.total_sent
        = c7state.stats.total_sent :=
  spec_C7_all_500_amended c7net c7state c7clip (by decide) rfl rfl rfl rfl

-- ============================================================
-- C8: replayAll
-- ============================================================

/-- Replay never mutates the queue beyond what the engine call itself
does: the catch handler only logs. -/
theorem replayStep_queue_eq (net : String → Nat → NetOutcome) (acc : ReplayOut)
    (item : FailedItem) :
    (replayStep net acc item).state.failedQueue
      = (sendToWebhook (net item.payload.id) item.payload 1 acc.state).state.failedQueue := by
  simp only [replayStep]
  split
  · rfl
  · exact loggerError_failedQueue _

/-- The batch delays awaited by replay are exactly one BATCH_DELAY per
successfully replayed item. -/
theorem replay_delays_replicate (net : String → Nat → NetOutcome) (s : St) :
    (retryFailedQueue net s).delays
      = List.replicate (retryFailedQueue net s).successCount BATCH_DELAY := by
  simp only [retryFailedQueue]
  split
  · rfl
  · have main : ∀ (l : List FailedItem) (acc : ReplayOut),
        acc.delays = List.replicate acc.successCount BATCH_DELAY →
        (l.foldl (replayStep net) acc).delays
          = List.replicate (l.foldl (replayStep net) acc).successCount BATCH_DELAY := by
      intro l
      induction l with
      | nil => intro acc h; exact h
      | cons a l ih =>
        intro acc h
        apply ih
        simp only [replayStep]
        split
        · simp [h, List.replicate_succ']
        · exact h
    exact main s.failedQueue ⟨s, 0, 0, []⟩ rfl

/-- A parked item with a numeric string id. -/
def c8item (n : Nat) : FailedItem :=
  ⟨⟨toString n, .null, .null, .null, .null, .null⟩, 0, .network⟩

/-- A state whose failed queue is at capacity: 50 distinct parked items. -/
def c8state : St := ⟨[], (List.range 50).map c8item, ⟨0, 0, none, 0⟩, none, 0⟩

/-- An endpoint that always fails with a network error. -/
def c8net : String → Nat → NetOutcome := fun _ _ => .netErr

set_option maxRecDepth 100000 in
/-- C8 counterexample (claim corrected): replaying a full queue of 50
items against an always-failing endpoint ends with no SentMarker
written (no delivery ever succeeded) and yet with item "0" gone from
the queue — the Delivery Engine's capacity eviction, not its success
path, removed it during the replay. -/
theorem spec_C8_replay_counterexample :
    c8state.failedQueue.any (fun item => item.payload.id == "0") = true
    ∧ (retryFailedQueue c8net c8state).state.sentIds = []
    ∧ (retryFailedQueue c8net c8state).state.failedQueue.any
        (fun item => item.payload.id == "0") = false :=
  ⟨rfl, rfl, rfl⟩

/-- C8 amended (proved): replayAll on an empty failed-item queue
performs zero network calls and leaves everything unchanged; on a
non-empty queue it iterates a snapshot sequentially, re-invoking the
Delivery Engine at attempt 1 for each item and scheduling the fixed
inter-item delay after each successfully replayed item only; Replay
itself never removes an item — every queue change during replay is
made by the Delivery Engine, whose success path removes the matching
FailedItem and whose capacity check may evict oldest items when the
queue is at capacity. -/
theorem spec_C8_replay_amended :
    (∀ (net : String → Nat → NetOutcome) (s : St), s.failedQueue = [] →
        retryFailedQueue net s = ⟨s, 0, 0, []⟩)
    ∧ (∀ (net : String → Nat → NetOutcome) (acc : ReplayOut) (item : FailedItem),
        (replayStep net acc item).state.failedQueue
          = (sendToWebhook (net item.payload.id) item.payload 1 acc.state).state.failedQueue)
    ∧ (∀ (net : String → Nat → NetOutcome) (s : St),
        (retryFailedQueue net s).delays
          = List.replicate (retryFailedQueue net s).successCount BATCH_DELAY) := by
  refine ⟨?_, replayStep_queue_eq, replay_delays_replicate⟩
  intro net s h
  simp [retryFailedQueue, h]

/-- Witness for the amended C8 at a concrete empty queue. -/
theorem spec_C8_replay_amended_witness :
    retryFailedQueue c8net ⟨[], [], ⟨0, 0, none, 0⟩, none, 0⟩
      = ⟨⟨[], [], ⟨0, 0, none, 0⟩, none, 0⟩, 0, 0, []⟩ :=
  spec_C8_replay_amended.1 c8net ⟨[], [], ⟨0, 0, none, 0⟩, none, 0⟩ rfl

-- ============================================================
-- C9: health probes
-- ============================================================

/-- C9 counterexample (claim corrected): a health probe whose fetch
throws mutates the persisted Stats structure — the catch block runs
Logger.error, which increments totalFailed. -/
theorem spec_C9_health_probe_counterexample :
    (performHealthCheck .exn ⟨[], [], ⟨0, 0, none, 0⟩, none, 0⟩).1.stats.total_failed
      ≠ (⟨[], [], ⟨0, 0, none, 0⟩, none, 0⟩ : St).stats.total_failed := by
  decide

/-- C9 amended (proved): a health probe never touches the SentMarker
store or the failed-item queue, whatever its outcome; a probe that
completes with any HTTP status leaves Stats unchanged (a 2xx only
updates the separate last-health-check key); a probe whose fetch
throws increments totalFailed by one through the shared error logger
and leaves totalSent unchanged. -/
theorem spec_C9_health_probe_amended (o : ProbeOutcome) (s : St) :
    (performHealthCheck o s).1.sentIds = s.sentIds
    ∧ (performHealthCheck o s).1.failedQueue = s.failedQueue
    ∧ (∀ c : Nat, o = .status c → (performHealthCheck o s).1.stats = s.stats)
    ∧ (o = .exn →
        (performHealthCheck o s).1.stats.total_failed = s.stats.total_failed + 1
        ∧ (performHealthCheck o s).1.stats.total_sent = s.stats.total_sent) := by
  cases o with
  | status c =>
    refine ⟨?_, ?_, ?_, ?_⟩
    · simp only [performHealthCheck]
      split <;> rfl
    · simp only [performHealthCheck]
      split <;> rfl
    · intro c2 h
      simp only [performHealthCheck]
      split <;> rfl
    · intro h
      exact absurd h (by simp)
  | exn =>
    refine ⟨loggerError_sentIds s, loggerError_failedQueue s, ?_, ?_⟩
    · intro c h
      exact absurd h (by simp)
    · intro h
      exact ⟨loggerError_total_failed s, loggerError_total_sent s⟩

/-- Witness for the amended C9: a failed-status probe leaves Stats
unchanged; a throwing probe bumps totalFailed from 4 to 5. -/
theorem spec_C9_health_probe_amended_witness :
    (performHealthCheck (.status 503) ⟨[], [], ⟨0, 0, none, 0⟩, none, 0⟩).1.stats
      = (⟨[], [], ⟨0, 0, none, 0⟩, none, 0⟩ : St).stats
    ∧ (performHealthCheck .exn ⟨[], [], ⟨3, 4, none, 0⟩, none, 9⟩).1.stats.total_failed
        = 4 + 1 :=
  ⟨(spec_C9_health_probe_amended (.status 503) ⟨[], [], ⟨0, 0, none, 0⟩, none, 0⟩).2.2.1
      503 rfl,
    ((spec_C9_health_probe_amended .exn ⟨[], [], ⟨3, 4, none, 0⟩, none, 9⟩).2.2.2 rfl).1⟩

end SunoBridge
